import Mathlib

/-!
Verification of TikTok-Sayer (`tiktok_sayer.py`): a shallow embedding of the
pure parts of the program (count parsing, field validation, URL handling,
profile / relationship / contact / tagged-user extraction logic) together
with proofs about the embedded definitions.

External effects (HTTP responses, the rendered page, webdriver behaviour) are
passed in explicitly as environment values describing the outcome of each
external step; everything downstream of those outcomes is translated directly
from the source.
-/

/- Batteries marks rational arithmetic `@[irreducible]`; re-enable kernel
evaluation so that concrete instances can be settled by `decide`. -/
attribute [local semireducible] Rat.mul Rat.add Rat.sub Rat.inv

set_option maxRecDepth 10000

namespace TikTokSayer

/-! ### Basic character/string helpers

The Python code works over `str`; we work over `List Char` (Lean strings wrap
`List Char`).  Python's `str.strip`/`str.upper`/`str.lower` handle full
Unicode; the source only relies on their behaviour on ASCII letters and ASCII
whitespace, which is what we model (non-ASCII characters, e.g. the Arabic
keyword letters, are left unchanged, as `upper`/`lower` leave them). -/

/-- ASCII whitespace, as stripped by `str.strip()`. -/
def isSpaceChar (c : Char) : Bool :=
  c == ' ' || c == '\t' || c == '\n' || c == '\r' || c == '\x0b' || c == '\x0c'

/-- `str.strip()` on a character list. -/
def trimL (l : List Char) : List Char :=
  ((l.dropWhile isSpaceChar).reverse.dropWhile isSpaceChar).reverse

def trimS (s : String) : String := String.mk (trimL s.toList)

/-- `str.upper()` restricted to ASCII. -/
def upperL (l : List Char) : List Char := l.map Char.toUpper

/-- `str.lower()` restricted to ASCII. -/
def lowerL (l : List Char) : List Char := l.map Char.toLower

def lowerS (s : String) : String := String.mk (lowerL s.toList)

/-- Does the second list start with the first? -/
def startsWithL : List Char → List Char → Bool
  | [], _ => true
  | _ :: _, [] => false
  | a :: as, b :: bs => a == b && startsWithL as bs

/-- Does the list contain `sub` as a contiguous substring (Python `sub in s`)? -/
def hasSubL (sub : List Char) : List Char → Bool
  | [] => sub.isEmpty
  | c :: t => startsWithL sub (c :: t) || hasSubL sub t

def hasSubS (sub s : String) : Bool := hasSubL sub.toList s.toList

/-- Python `any(k in s for k in keys)`. -/
def hasAnySub (keys : List String) (s : List Char) : Bool :=
  keys.any (fun k => hasSubL k.toList s)

/-! ### A model of CPython floats (IEEE-754 binary64)

`_parse_count` computes `int(float(token) * multiplier)`.  `float(...)` of a
decimal string is the correctly rounded (round-to-nearest, ties-to-even)
binary64 value, overflowing to `inf` at `2^1024 - 2^970`; `*` is correctly
rounded binary64 multiplication with the same overflow rule; `int(...)`
truncates a finite float toward zero and raises `OverflowError` on `inf`.
We model floats as exact rationals plus an `inf` marker, with explicit
rounding.  (Values within one ulp of the overflow threshold are the only
place this model could differ from CPython; no claim depends on them.) -/

/-- `2^n` as a rational (via kernel-evaluable `Nat.pow`). -/
def pow2q (n : ℕ) : ℚ := ((2 ^ n : ℕ) : ℚ)

/-- `2^e` for an integer `e`, as a rational. -/
def pow2z (e : ℤ) : ℚ := if 0 ≤ e then pow2q e.toNat else (pow2q (-e).toNat)⁻¹

/-- Fuelled binary logarithm: for `1 ≤ n ≤ fuel`, returns `⌊log2 n⌋`.
(The fuel only forces termination; the recursion stops once `n < 2`.) -/
def natLog2F : ℕ → ℕ → ℕ
  | 0, _ => 0
  | fuel + 1, n => if n < 2 then 0 else natLog2F fuel (n / 2) + 1

/-- `⌊log2 n⌋` for `n ≥ 1` (and 0 for 0). -/
def natLog2 (n : ℕ) : ℕ := natLog2F n n

/-- Largest `e : ℤ` with `2^e ≤ q`, for `q > 0`. -/
def ilog2 (q : ℚ) : ℤ :=
  let e0 : ℤ := (natLog2 q.num.natAbs : ℤ) - (natLog2 q.den : ℤ)
  if pow2z (e0 + 1) ≤ q then e0 + 1
  else if pow2z e0 ≤ q then e0
  else e0 - 1

/-- Round a rational to an integer, ties to even. -/
def roundHalfEven (q : ℚ) : ℤ :=
  let f := ⌊q⌋
  if q - (f : ℚ) < 1 / 2 then f
  else if (1 : ℚ) / 2 < q - (f : ℚ) then f + 1
  else if f % 2 = 0 then f else f + 1

/-- A CPython float: a finite binary64 value (stored as its exact rational
value) or positive infinity.  (Only nonnegative values arise here.) -/
inductive PyFloat where
  | finite (val : ℚ)
  | inf
deriving DecidableEq

/-- Overflow threshold of binary64, `2^1024 - 2^970`, written as an explicit
numeral so the kernel can evaluate comparisons against it (see
`ovfThreshold_eq`). -/
def ovfThreshold : ℚ :=
  ((179769313486231580793728971405303415079934132710037826936173778980444968292764750946649017977587207096330286416692887910946555547851940402630657488671505820681908902000708383676273854845817711531764475730270069855571366959622842914819860834936475292719074168444365510704342711559699508093042880177904174497792 : ℕ) : ℚ)

/-- Exponent of the unit in the last place used when rounding `q > 0`. -/
def ulpExp (q : ℚ) : ℤ := max (ilog2 q - 52) (-1074)

/-- Round-to-nearest-even at binary64 precision (no overflow handling). -/
def rndAux (q : ℚ) : ℚ :=
  (roundHalfEven (q / pow2z (ulpExp q)) : ℚ) * pow2z (ulpExp q)

/-- Correctly rounded conversion of an exact nonnegative rational to binary64:
used both for `float(string)` and for the result of a multiplication. -/
def roundToDouble (q : ℚ) : PyFloat :=
  if ovfThreshold ≤ q then .inf else .finite (rndAux q)

/-- Python `int(x)` truncation toward zero on a finite float value. -/
def pyTrunc (q : ℚ) : ℤ := if 0 ≤ q then ⌊q⌋ else -⌊-q⌋

/-! ### `_parse_count` (source lines 787-833)

```python
def _parse_count(self, count_str):
    if not count_str:
        return 0
    try:
        count_str = str(count_str).strip()
        arabic_to_english = {...}           # Arabic-Indic digits to ASCII
        for ar, en in arabic_to_english.items():
            count_str = count_str.replace(ar, en)
        count_str = count_str.replace(',', '').replace(' ', '')
        if any(k in count_str.upper() for k in ['K', 'K+', 'ألف', 'الف']):
            numeric_part = re.search(r'([\d.]+)', count_str)
            if numeric_part:
                return int(float(numeric_part.group(1)) * 1000)
            return 0
        elif ...  # same for M-markers (×10^6) and B-markers (×10^9)
        else:
            numeric_part = re.search(r'([\d.]+)', count_str)
            if numeric_part:
                return int(float(numeric_part.group(1)))
            return 0
    except (ValueError, TypeError, AttributeError) as e:
        return 0
```

`float(...)` of an invalid token raises `ValueError`, which the `except`
clause catches (→ 0); `int(...)` of an infinite float raises `OverflowError`,
which the `except` clause does NOT list, so it escapes `_parse_count`.
`\d` is modelled as an ASCII digit: the only non-ASCII digits the program
meets are the Arabic-Indic ones, already mapped to ASCII at this point. -/

/-- Arabic-Indic digit to ASCII digit (the mapping applied by the for-loop of
`replace` calls). -/
def arabicToEnglish (c : Char) : Char :=
  if c == '٠' then '0' else if c == '١' then '1' else if c == '٢' then '2'
  else if c == '٣' then '3' else if c == '٤' then '4' else if c == '٥' then '5'
  else if c == '٦' then '6' else if c == '٧' then '7' else if c == '٨' then '8'
  else if c == '٩' then '9' else c

/-- The cleaning pipeline: strip, map Arabic-Indic digits, drop `','`/`' '`. -/
def cleanCount (l : List Char) : List Char :=
  ((trimL l).map arabicToEnglish).filter (fun c => !(c == ',' || c == ' '))

def kMarkers : List String := ["K", "K+", "ألف", "الف"]
def mMarkers : List String := ["M", "M+", "مليون"]
def bMarkers : List String := ["B", "B+", "مليار"]

/-- A character matched by `[\d.]`. -/
def isTokChar (c : Char) : Bool := c.isDigit || c == '.'

/-- `re.search(r'([\d.]+)', s)`: the leftmost maximal run of `[\d.]`. -/
def extractToken (c : List Char) : Option (List Char) :=
  let tok := (c.dropWhile (fun ch => !isTokChar ch)).takeWhile isTokChar
  if tok.isEmpty then none else some tok

/-- Numeric value of a list of ASCII digits. -/
def digitsVal (l : List Char) : ℕ := l.foldl (fun a c => 10 * a + (c.toNat - 48)) 0

/-- `float(t)` for a token `t` matching `[\d.]+`: defined (`some`) iff `t` has
at most one `'.'` and at least one digit, in which case the exact decimal
value is returned (rounding to binary64 happens in `roundToDouble`). -/
def tokenValue? (t : List Char) : Option ℚ :=
  if t.count '.' ≤ 1 && t.any Char.isDigit then
    let intPart := t.takeWhile (fun c => c != '.')
    let fracPart := (t.dropWhile (fun c => c != '.')).drop 1
    some ((digitsVal intPart : ℚ) + (digitsVal fracPart : ℚ) / ((10 ^ fracPart.length : ℕ) : ℚ))
  else none

/-- Result of `_parse_count`: a returned integer, or an uncaught
`OverflowError`. -/
inductive ParseResult where
  | ok (n : ℤ)
  | overflowError
deriving DecidableEq

/-- The body shared by the four branches of `_parse_count`: search for the
numeric token, `float` it, multiply (for the K/M/B branches), `int` it. -/
def numBranch (c : List Char) (mult : Option ℕ) : ParseResult :=
  match extractToken c with
  | none => .ok 0
  | some t =>
    match tokenValue? t with
    | none => .ok 0          -- float() raises ValueError, caught → return 0
    | some q =>
      match roundToDouble q with
      | .inf => .overflowError        -- int(inf): uncaught OverflowError
      | .finite f =>
        match mult with
        | none => .ok (pyTrunc f)
        | some m =>
          match roundToDouble (f * ((m : ℕ) : ℚ)) with
          | .inf => .overflowError    -- int(inf): uncaught OverflowError
          | .finite p => .ok (pyTrunc p)

/-- `_parse_count` (named without the leading underscore). -/
def parse_count (s : String) : ParseResult :=
  if s.toList.isEmpty then .ok 0
  else
    let c := cleanCount s.toList
    if hasAnySub kMarkers (upperL c) then numBranch c (some 1000)
    else if hasAnySub mMarkers (upperL c) then numBranch c (some 1000000)
    else if hasAnySub bMarkers (upperL c) then numBranch c (some 1000000000)
    else numBranch c none

/-! ### `validate_data` (source lines 658-785)

A Python value passed to / returned from `validate_data`.  The program only
passes strings, ints and `None` (plus bools, which never reach the branches
relevant here). -/

inductive PyVal where
  | vNone
  | vInt (n : ℤ)
  | vStr (s : String)
deriving DecidableEq

/-- The `data_type` argument of `validate_data` ('float' is never used by the
extraction pipeline and is omitted; `unknownType` stands for any other tag,
whose branch returns the default). -/
inductive DType where
  | string
  | int
  | url
  | email
  | username
  | unknownType
deriving DecidableEq

/-- Python `str(x)` for the values that can reach the `'string'` branch. -/
def pyStr : PyVal → String
  | .vNone => "None"
  | .vInt n => toString n
  | .vStr s => s

/-- A character of the class `[a-zA-Z0-9_.]`. -/
def isUserChar (c : Char) : Bool := c.isAlpha || c.isDigit || c == '_' || c == '.'

/-- `re.match(r'^[a-zA-Z0-9_.]+$', s)` on an already-stripped string (stripped
strings cannot end in a newline, so `$` means end-of-string here). -/
def usernameOkL (l : List Char) : Bool := !l.isEmpty && l.all isUserChar

def usernameOkS (s : String) : Bool := usernameOkL s.toList

/-- A character of the email local-part class `[a-zA-Z0-9._%+-]`. -/
def isEmailLocalChar (c : Char) : Bool :=
  c.isAlpha || c.isDigit || c == '.' || c == '_' || c == '%' || c == '+' || c == '-'

/-- A character of the email domain class `[a-zA-Z0-9.-]`. -/
def isEmailDomainChar (c : Char) : Bool := c.isAlpha || c.isDigit || c == '.' || c == '-'

/-- `re.match(r'^[a-zA-Z0-9._%+-]+@[a-zA-Z0-9.-]+\.[a-zA-Z]{2,}$', s)` for an
already-stripped `s`: split at the first `'@'`; the local part must be a
nonempty run of local characters, and the domain must be domain characters
ending in a dot followed by at least two letters. -/
def emailOkL (l : List Char) : Bool :=
  let lcl := l.takeWhile (fun c => c != '@')
  let rest := (l.dropWhile (fun c => c != '@')).drop 1
  let tld := (rest.reverse.takeWhile Char.isAlpha).reverse
  let dom := rest.take (rest.length - tld.length)
  !lcl.isEmpty && lcl.all isEmailLocalChar && !(rest.any (fun c => c == '@')) &&
    2 ≤ tld.length && !dom.isEmpty && (dom.getLast? == some '.') &&
    dom.all isEmailDomainChar

/-- `urlparse` (Python `urllib.parse.urlparse`) restricted to what the program
feeds it: absolute `http(s)://` URLs (already validated) — and a catch-all
for anything else (no scheme/netloc, everything in `path`), which is enough
for the `all([result.scheme, result.netloc])` test in the `'url'` branch. -/
structure UrlParts where
  scheme : String
  netloc : String
  path : String
  query : String
deriving DecidableEq

def urlparseAfterScheme (scheme : String) (rest : List Char) : UrlParts :=
  let netloc := rest.takeWhile (fun c => !(c == '/' || c == '?' || c == '#'))
  let after := rest.dropWhile (fun c => !(c == '/' || c == '?' || c == '#'))
  let beforeFrag := after.takeWhile (fun c => c != '#')
  let path := beforeFrag.takeWhile (fun c => c != '?')
  let query := (beforeFrag.dropWhile (fun c => c != '?')).drop 1
  ⟨scheme, String.mk netloc, String.mk path, String.mk query⟩

def urlparse (s : String) : UrlParts :=
  let l := s.toList
  if startsWithL "http://".toList l then urlparseAfterScheme "http" (l.drop 7)
  else if startsWithL "https://".toList l then urlparseAfterScheme "https" (l.drop 8)
  else ⟨"", "", s, ""⟩

/-- The min/max clamping of the `'int'` branch:
`if min is not None and data < min: return min`;
`if max is not None and data > max: return max`; `return data`. -/
def clampInt (n : ℤ) (minv maxv : Option ℤ) : ℤ :=
  match minv with
  | some a =>
    if n < a then a
    else match maxv with
      | some b => if b < n then b else n
      | none => n
  | none =>
    match maxv with
    | some b => if b < n then b else n
    | none => n

/-- `validate_data(data, data_type, default_value, min_value, max_value)`.
Every internal exception (here: the `OverflowError` that `_parse_count` can
raise) is caught by the final `except Exception` and converted to the
default. -/
def validate_data (data : PyVal) (dtype : DType) (dflt : PyVal)
    (minv maxv : Option ℤ) : PyVal :=
  match data with
  | .vNone => dflt
  | _ =>
    match dtype with
    | .string =>
      let t := trimS (pyStr data)
      if t.toList.isEmpty then dflt else .vStr t
    | .int =>
      match data with
      | .vStr s =>
        match parse_count s with
        | .overflowError => dflt          -- caught by `except Exception`
        | .ok n => .vInt (clampInt n minv maxv)
      | .vInt n => .vInt (clampInt n minv maxv)
      | .vNone => dflt
    | .url =>
      match data with
      | .vStr s =>
        let t := trimS s
        if t.toList.isEmpty then dflt
        else if !(startsWithL "http://".toList t.toList ||
                  startsWithL "https://".toList t.toList) then dflt
        else
          let p := urlparse t
          if p.scheme != "" && p.netloc != "" then .vStr t else dflt
      | _ => dflt
    | .email =>
      match data with
      | .vStr s =>
        let t := trimS s
        if t.toList.isEmpty then dflt
        else if emailOkL t.toList then .vStr t else dflt
      | _ => dflt
    | .username =>
      match data with
      | .vStr s =>
        let t := trimS s
        if t.toList.isEmpty then dflt
        else
          let u := if startsWithL "@".toList t.toList then String.mk (t.toList.drop 1) else t
          if usernameOkL u.toList then .vStr u else dflt
      | _ => dflt
    | .unknownType => dflt

/-- Extract the string of a `PyVal` (used where the source relies on
`validate_data` returning a string). -/
def pyValToStr : PyVal → String
  | .vStr s => s
  | _ => ""

/-- Extract the integer of a `PyVal` (used where the source relies on
`validate_data` returning an int). -/
def pyValToInt : PyVal → ℤ
  | .vInt n => n
  | _ => 0

/-- `validate_data(u, 'url')` with the implicit default `None`, as used by
`extract_contact_info`. -/
def validate_url (s : String) : Option String :=
  match validate_data (.vStr s) .url .vNone none none with
  | .vStr u => some u
  | _ => none

/-! ### `extract_contact_info` link handling (source lines 1143-1226, 1283-1287)

For each anchor found by the social/website selectors the code runs (lines
1160-1193, and identically 1204-1226 for websites):

```python
validated_url = self.validate_data(href, 'url')
if validated_url and validated_url not in contact_info['social_links']:
    parsed_url = urlparse(validated_url)
    base_url = f"{parsed_url.scheme}://{parsed_url.netloc}{parsed_url.path}"
    base_urls = [urlparse(x).netloc + urlparse(x).path for x in contact_info['social_links']]
    if base_url not in base_urls:
        contact_info['social_links'].append(validated_url)
```

and at the end deduplicates with `list(set(...))` (exact string identity). -/

/-- `scheme + "://" + netloc + path` — the left-hand side of the base-URL
comparison, and the claim's notion of normalized URL. -/
def normBase (u : String) : String :=
  let p := urlparse u
  p.scheme ++ "://" ++ p.netloc ++ p.path

/-- `urlparse(x).netloc + urlparse(x).path` — the right-hand side of the
base-URL comparison. -/
def netlocPath (u : String) : String :=
  let p := urlparse u
  p.netloc ++ p.path

/-- Processing of one candidate link (`href` is `link.get('href')`, which may
be `None`). -/
def addSocialLink (acc : List String) (href : Option String) : List String :=
  match href with
  | none => acc
  | some h =>
    match validate_url h with
    | none => acc
    | some u =>
      if acc.contains u then acc
      else
        let base := normBase u
        let bases := acc.map netlocPath
        if bases.contains base then acc
        else acc ++ [u]

/-- The accumulated social-links list over all selector hits. -/
def extractSocialLinks (hrefs : List (Option String)) : List String :=
  hrefs.foldl addSocialLink []

/-- `list(set(l))` for strings: one copy of each distinct member (modelled as
keeping first occurrences; Python's set order is arbitrary, and all claims
about the result are order-insensitive). -/
def listSetDedup : List String → List String :=
  go []
where
  go (seen : List String) : List String → List String
    | [] => []
    | x :: t => if seen.contains x then go seen t else x :: go (x :: seen) t

/-- The final social-links category of the contact bundle for a given sequence
of anchor targets. -/
def contactSocialLinks (hrefs : List (Option String)) : List String :=
  listSetDedup (extractSocialLinks hrefs)

/-! ### `get_profile_info` (source lines 469-656)

The function first tries the structured API; on a 200 response whose JSON has
a `userInfo` key it returns a record mapped straight from the payload (note:
no `data_source` key and no validation on that path).  Otherwise it starts a
webdriver session and scrapes.  Environments describe the outcome of the two
external steps. -/

/-- `data['userInfo'].get('stats', {})` — absent keys default to 0 via
`stats.get(..., 0)`. -/
structure ApiStats where
  followerCount : Option ℤ
  followingCount : Option ℤ
  heartCount : Option ℤ
  videoCount : Option ℤ
deriving DecidableEq

/-- `data['userInfo'].get('user', {})` fields used by the mapping. -/
structure ApiUser where
  nickname : Option String
  signature : Option String
  verified : Option Bool
  privateAccount : Option Bool
deriving DecidableEq

structure ApiUserInfo where
  user : ApiUser
  stats : ApiStats
deriving DecidableEq

/-- Outcome of the API attempt: the request/JSON-decoding raised (caught at
line 501), or a response with a status code and an optional `userInfo`. -/
inductive ApiOutcome where
  | raises
  | resp (status : ℤ) (userInfo : Option ApiUserInfo)
deriving DecidableEq

/-- The API path returns a record iff status == 200 and `userInfo` is present. -/
def apiHit : ApiOutcome → Bool
  | .resp s (some _) => s == 200
  | _ => false

/-- What the scrape extracted from the rendered page (element texts as found;
`none` = selector matched nothing). -/
structure ScrapedPage where
  displayNameText : Option String
  pageBioText : Option String
  statsText : List String
  verifiedBadge : Bool
  privateBadge : Bool
deriving DecidableEq

/-- Outcome of the scraping step.
* `setupRaises`: `setup_webdriver()` raised — no session was created; the
  outer handler (line 632) builds the fallback record.
* `getRaises`: `driver.get(profile_url)` (line 510) raised — this call sits
  between session creation and the `try` whose `finally` quits the driver,
  so the session is never released; the outer handler builds the fallback
  record.
* `innerRaises`: an exception inside the inner `try` (lines 512-626, e.g. the
  page-ready wait timing out) — caught at line 627, driver quit by the
  `finally`, and the function falls through to `return profile_data` with
  `profile_data` still the empty dict initialized at line 472.
* `ok`: the scrape completed and produced the given page data. -/
inductive ScrapeOutcome where
  | setupRaises (msg : String)
  | getRaises (msg : String)
  | innerRaises
  | ok (page : ScrapedPage)
deriving DecidableEq

/-- The profile dict.  Fields are `Option`s because the three construction
sites set different key sets (the API record has no `data_source`; the empty
dict has no keys at all).  The `join_date`/`extraction_timestamp` keys (pure
clock values) are omitted.  `bioText`/`privateFlag`/`errorMsg` model the
`bio`/`private`/`error` keys. -/
structure ProfileData where
  username : Option String
  display_name : Option String
  bioText : Option String
  follower_count : Option ℤ
  following_count : Option ℤ
  likes : Option ℤ
  video_count : Option ℤ
  verified : Option Bool
  privateFlag : Option Bool
  data_source : Option String
  errorMsg : Option String
deriving DecidableEq

/-- `profile_data = {}` (line 472). -/
def emptyProfile : ProfileData :=
  ⟨none, none, none, none, none, none, none, none, none, none, none⟩

/-- The record returned by the API path (lines 487-500): payload values are
copied without validation and no `data_source` key is set. -/
def apiRecord (username : String) (ui : ApiUserInfo) : ProfileData where
  username := some username
  display_name := some (ui.user.nickname.getD username)
  bioText := some (ui.user.signature.getD "")
  follower_count := some (ui.stats.followerCount.getD 0)
  following_count := some (ui.stats.followingCount.getD 0)
  likes := some (ui.stats.heartCount.getD 0)
  video_count := some (ui.stats.videoCount.getD 0)
  verified := some (ui.user.verified.getD false)
  privateFlag := some (ui.user.privateAccount.getD false)
  data_source := none
  errorMsg := none

def followerKeys : List String := ["follower", "fans", "متابع", "مشترك"]
def followingKeys : List String := ["following", "متابَع", "يتابع"]
def likeKeys : List String := ["like", "إعجاب"]
def videoKeys : List String := ["video", "فيديو"]

/-- One iteration of the stats-classification loop (lines 558-582), acting on
`(follower, following, likes, videos)`.  The value parsed is the NEXT token,
`stats_text[i+1]` (or `"0"` past the end); a parse exception skips just this
iteration (the per-iteration `try`/`continue`); a follower count above
500 000 000 is zeroed (lines 565-567) while a following count above 10 000 is
only logged. -/
def statStep (stats : List String) (acc : ℤ × ℤ × ℤ × ℤ) (i : ℕ) : ℤ × ℤ × ℤ × ℤ :=
  let low := lowerL (stats.getD i "").toList
  let value := stats.getD (i + 1) "0"
  if hasAnySub followerKeys low then
    match parse_count value with
    | .overflowError => acc
    | .ok n => (if 500000000 < n then 0 else n, acc.2.1, acc.2.2.1, acc.2.2.2)
  else if hasAnySub followingKeys low then
    match parse_count value with
    | .overflowError => acc
    | .ok n => (acc.1, n, acc.2.2.1, acc.2.2.2)
  else if hasAnySub likeKeys low then
    match parse_count value with
    | .overflowError => acc
    | .ok n => (acc.1, acc.2.1, n, acc.2.2.2)
  else if hasAnySub videoKeys low then
    match parse_count value with
    | .overflowError => acc
    | .ok n => (acc.1, acc.2.1, acc.2.2.1, n)
  else acc

def classifyStats (stats : List String) : ℤ × ℤ × ℤ × ℤ :=
  (List.range stats.length).foldl (statStep stats) (0, 0, 0, 0)

/-- The record built by a completed scrape (lines 522-624): element texts are
defaulted, every field goes through `validate_data`, counts are clamped to
the configured bounds, and `data_source` is the string `'web_scraping'`. -/
def scrapeRecord (username : String) (page : ScrapedPage) : ProfileData :=
  let dname0 := match page.displayNameText with
    | some t => if (trimL t.toList).isEmpty then username else trimS t
    | none => username
  let pbio0 := match page.pageBioText with
    | some t => trimS t
    | none => ""
  let counts := classifyStats page.statsText
  let uname := pyValToStr (validate_data (.vStr username) .username (.vStr "unknown") none none)
  { username := some uname
    display_name := some (pyValToStr (validate_data (.vStr dname0) .string (.vStr uname) none none))
    bioText := some (pyValToStr (validate_data (.vStr pbio0) .string (.vStr "") none none))
    follower_count := some (pyValToInt (validate_data (.vInt counts.1) .int (.vInt 0) (some 0) (some 1000000000)))
    following_count := some (pyValToInt (validate_data (.vInt counts.2.1) .int (.vInt 0) (some 0) (some 10000)))
    likes := some (pyValToInt (validate_data (.vInt counts.2.2.1) .int (.vInt 0) (some 0) (some 10000000000)))
    video_count := some (pyValToInt (validate_data (.vInt counts.2.2.2) .int (.vInt 0) (some 0) (some 10000)))
    verified := some page.verifiedBadge
    privateFlag := some page.privateBadge
    data_source := some "web_scraping"
    errorMsg := none }

/-- The record built by the outer exception handler (lines 632-654). -/
def fallbackRecord (username msg : String) : ProfileData :=
  let uname := pyValToStr (validate_data (.vStr username) .username (.vStr "unknown") none none)
  { username := some uname
    display_name := some uname
    bioText := some ""
    follower_count := some 0
    following_count := some 0
    likes := some 0
    video_count := some 0
    verified := some false
    privateFlag := some false
    data_source := some "fallback"
    errorMsg := some (String.mk
      ((pyValToStr (validate_data (.vStr msg) .string (.vStr "Unknown error") none none)).toList.take 200)) }

/-- The scraping side of `get_profile_info` (reached when the API path did not
return). -/
def scrapeProfile (username : String) (sc : ScrapeOutcome) : ProfileData :=
  match sc with
  | .setupRaises msg => fallbackRecord username msg
  | .getRaises msg => fallbackRecord username msg
  | .innerRaises => emptyProfile
  | .ok page => scrapeRecord username page

def get_profile_info (username : String) (api : ApiOutcome) (sc : ScrapeOutcome) : ProfileData :=
  match api with
  | .resp s (some ui) => if s == 200 then apiRecord username ui else scrapeProfile username sc
  | _ => scrapeProfile username sc

/-! ### Rendering-session traces (for the resource claims)

For each extraction call, whether a webdriver session was acquired and
whether it was released before the call returned. -/

structure ResourceTrace where
  acquired : Bool
  released : Bool
deriving DecidableEq

/-- Session lifecycle of `get_profile_info`: `setup_webdriver()` at line 509,
`driver.get` at 510 OUTSIDE the `try` at 512 whose `finally` (629) quits. -/
def get_profile_info_trace (api : ApiOutcome) (sc : ScrapeOutcome) : ResourceTrace :=
  if apiHit api then ⟨false, false⟩
  else
    match sc with
    | .setupRaises _ => ⟨false, false⟩
    | .getRaises _ => ⟨true, false⟩
    | .innerRaises => ⟨true, true⟩
    | .ok _ => ⟨true, true⟩

/-! ### `get_user_followers` / `get_user_following` (source lines 835-960 / 962-1065) -/

/-- A follower/following list item as found on the page. -/
structure RawUserItem where
  usernameText : Option String
  displayNameText : Option String
  statsTexts : List String
  raises : Bool
deriving DecidableEq

structure RelationshipEntry where
  username : String
  display_name : String
  follower_count : ℤ
  following_count : ℤ
deriving DecidableEq

/-- `s.split()[0]`: the first whitespace-separated word. -/
def firstWord (l : List Char) : List Char :=
  (l.dropWhile isSpaceChar).takeWhile (fun c => !isSpaceChar c)

/-- The per-item stats loop (lines 925-930): `none` = `_parse_count` raised,
so the enclosing per-item `try` skips the whole item. -/
def itemCountsGo : List String → ℤ → ℤ → Option (ℤ × ℤ)
  | [], fc, gc => some (fc, gc)
  | t :: rest, fc, gc =>
    let low := lowerL (trimL t.toList)
    if hasSubL "follower".toList low then
      match parse_count (String.mk (firstWord low)) with
      | .overflowError => none
      | .ok n => itemCountsGo rest n gc
    else if hasSubL "following".toList low then
      match parse_count (String.mk (firstWord low)) with
      | .overflowError => none
      | .ok n => itemCountsGo rest fc n
    else itemCountsGo rest fc gc

/-- The item loop (lines 909-940 / 1014-1045): strip and de-`@` the username
text, compute counts, default the display name, and append only when the
username text is non-empty (`if username_text:`). -/
def parseUserItems : List RawUserItem → List RelationshipEntry
  | [] => []
  | it :: rest =>
    if it.raises then parseUserItems rest
    else
      let u := String.mk ((trimL (it.usernameText.getD "").toList).filter (fun c => !(c == '@')))
      match itemCountsGo it.statsTexts 0 0 with
      | none => parseUserItems rest
      | some (fc, gc) =>
        if u.toList.isEmpty then parseUserItems rest
        else
          { username := u
            display_name := if (trimS (it.displayNameText.getD "")).toList.isEmpty
                            then u else trimS (it.displayNameText.getD "")
            follower_count := fc
            following_count := gc } :: parseUserItems rest

/-- Outcome of the page interaction for a relationship extraction.
* `setupRaises`: `setup_webdriver()` raised — caught by the outer handler.
* `getRaises`: `driver.get` (line 846/973) raised — it sits before the inner
  `try`, so the session leaks; caught by the outer handler.
* `waitRaises`: the page-ready wait raised — caught at the inner handler.
* `noLink`: no list-opening control was found (`followers_link is None`).
* `linkFails`: the control was found but the modal wait / scrolling raised.
* `withItems`: the modal opened and the given items were found.
Every branch except `withItems` produces the empty list. -/
inductive RelPage where
  | setupRaises
  | getRaises
  | waitRaises
  | noLink
  | linkFails
  | withItems (items : List RawUserItem)
deriving DecidableEq

def get_user_followers : RelPage → List RelationshipEntry
  | .withItems items => parseUserItems items
  | _ => []

def get_user_following : RelPage → List RelationshipEntry
  | .withItems items => parseUserItems items
  | _ => []

/-- Session lifecycle of `get_user_followers` (acquire at 845, `driver.get` at
846 outside the `try` at 848 whose `finally` (948) quits). -/
def get_user_followers_trace : RelPage → ResourceTrace
  | .setupRaises => ⟨false, false⟩
  | .getRaises => ⟨true, false⟩
  | _ => ⟨true, true⟩

/-- Session lifecycle of `get_user_following` (acquire at 972, `driver.get` at
973 outside the `try` at 975 whose `finally` (1053) quits). -/
def get_user_following_trace : RelPage → ResourceTrace
  | .setupRaises => ⟨false, false⟩
  | .getRaises => ⟨true, false⟩
  | _ => ⟨true, true⟩

/-- Session lifecycle of `extract_contact_info`: acquire at line 1090, and
`driver.get` (1093) is INSIDE the `try` (1092) whose `finally` (1280) quits,
so once acquired the session is always released. -/
def extract_contact_info_trace (setupOk : Bool) : ResourceTrace :=
  if setupOk then ⟨true, true⟩ else ⟨false, false⟩

/-! ### `get_tagged_users`, first search pass (source lines 1369-1439, 1588-1596)

NOTE: the module as shipped does not parse — the hashtag-fallback block
(lines 1450-1580) is mis-indented (`IndentationError` at line 1450, and the
block also references an undefined `hashtag` and uses `continue` outside a
loop).  The definitions below model the syntactically intact first search
pass (lines 1402-1437) and the final sort (line 1589); the fallback block is
only reached when the first pass found nothing. -/

structure TaggedItem where
  authorText : Option String
  displayNameText : Option String
  dateText : Option String
deriving DecidableEq

structure TaggedUserEntry where
  username : String
  display_name : String
  post_count : ℤ
  last_tagged : String
deriving DecidableEq

/-- Python string `<` (lexicographic on code points). -/
def pyStrLtL : List Char → List Char → Bool
  | [], [] => false
  | [], _ :: _ => true
  | _ :: _, [] => false
  | a :: as, b :: bs =>
    if a.toNat < b.toNat then true
    else if b.toNat < a.toNat then false
    else pyStrLtL as bs

def pyStrLt (a b : String) : Bool := pyStrLtL a.toList b.toList

/-- Re-sighting of author `u` dated `d`: increment `post_count` of the first
matching entry and replace `last_tagged` when the new date compares greater
(lines 1424-1429). -/
def updateSighting (u d : String) : List TaggedUserEntry → List TaggedUserEntry
  | [] => []
  | e :: rest =>
    if e.username == u then
      { e with post_count := e.post_count + 1
               last_tagged := if pyStrLt e.last_tagged d then d else e.last_tagged } :: rest
    else e :: updateSighting u d rest

/-- Processing of one search-result item (lines 1402-1437): resolve the author
handle (strip, drop `@`s), skip the target's own posts (case-insensitive),
default display name to the handle and date to today, then update or append. -/
def tagStep (target today : String) (acc : List TaggedUserEntry) (it : TaggedItem) :
    List TaggedUserEntry :=
  let u := String.mk ((trimL (it.authorText.getD "").toList).filter (fun c => !(c == '@')))
  if lowerS u == lowerS target then acc
  else
    let dname := match it.displayNameText with
      | some t => trimS t
      | none => u
    let date := match it.dateText with
      | some t => trimS t
      | none => today
    if acc.any (fun e => e.username == u) then updateSighting u date acc
    else acc ++ [⟨u, dname, 1, date⟩]

def tagLoop (target today : String) : List TaggedItem → List TaggedUserEntry → List TaggedUserEntry
  | [], acc => acc
  | it :: rest, acc => tagLoop target today rest (tagStep target today acc it)

/-- Stable insertion keeping the accumulator sorted by descending
`post_count` (equal counts keep their first-seen order, as Python's stable
`sort(key=..., reverse=True)` does). -/
def insertTagged : List TaggedUserEntry → TaggedUserEntry → List TaggedUserEntry
  | [], e => [e]
  | x :: t, e => if x.post_count < e.post_count then e :: x :: t else x :: insertTagged t e

/-- `tagged.sort(key=lambda x: x['post_count'], reverse=True)` (line 1589). -/
def sortByCountDesc (l : List TaggedUserEntry) : List TaggedUserEntry :=
  l.foldl insertTagged []

/-- The first search pass of `get_tagged_users` followed by the final sort. -/
def get_tagged_users_firstPass (target today : String) (items : List TaggedItem) :
    List TaggedUserEntry :=
  sortByCountDesc (tagLoop target today items [])

/-- A 400-digit numeral — `float()` of its token is `inf`, so `_parse_count`
reaches `int(inf)`. -/
def bigNines : String := String.mk (List.replicate 400 '9')

/-! ## Helper lemmas -/

theorem clampInt_eq_max_min (n a b : ℤ) (h : a ≤ b) :
    clampInt n (some a) (some b) = max a (min n b) := by
  simp only [clampInt]
  split_ifs <;> omega

theorem clampInt_mem (n a b : ℤ) (h : a ≤ b) :
    a ≤ clampInt n (some a) (some b) ∧ clampInt n (some a) (some b) ≤ b := by
  rw [clampInt_eq_max_min n a b h]
  omega

theorem validate_int_eq (n a b : ℤ) (d : PyVal) :
    validate_data (.vInt n) .int d (some a) (some b) = .vInt (clampInt n (some a) (some b)) := rfl

/-! ## Claim theorems -/

/-- Claim C9 (confirmed): for integer data with kind `'int'` and bounds
`min ≤ max`, `validate_data` clamps out-of-range values to the nearest bound
(never rejecting them or substituting the default). -/
theorem C9_validate_int_clamps (n a b : ℤ) (d : PyVal) (h : a ≤ b) :
    validate_data (.vInt n) .int d (some a) (some b) = .vInt (max a (min n b)) := by
  rw [validate_int_eq, clampInt_eq_max_min n a b h]

/-- Witness for C9 at the spec's example: `validate_data(150,'int',min=0,max=100) = 100`. -/
theorem C9_witness :
    validate_data (.vInt 150) .int .vNone (some 0) (some 100) = .vInt 100 := by
  have h := C9_validate_int_clamps 150 0 100 .vNone (by decide)
  exact h.trans (by decide)

/-- Claim C7 (confirmed): the five concrete `_parse_count` values given by the
spec. -/
theorem C7_parse_count_values :
    parse_count "1.2K" = .ok 1200 ∧ parse_count "3M" = .ok 3000000 ∧
    parse_count "٥٠٠" = .ok 500 ∧ parse_count "bad" = .ok 0 ∧
    parse_count "12,345" = .ok 12345 := by
  decide

/-- Claim C8 counterexample: on input `"John "` the claim's rule (no leading
`'@'`, and the remainder `"John "` does not match `[A-Za-z0-9_.]+` because of
the trailing space) prescribes the default `"unknown"`, but the code trims
first and returns `"John"`. -/
theorem C8_counterexample :
    validate_data (.vStr "John ") .username (.vStr "unknown") none none = .vStr "John" ∧
    "John ".toList.head? ≠ some '@' ∧ usernameOkS "John " = false ∧
    ("John" : String) ≠ "unknown" := by
  decide

/-- Claim C8 (amended): the value is first whitespace-trimmed; then a leading
`'@'` is stripped and the remainder returned when it matches
`[A-Za-z0-9_.]+`, otherwise the default is returned — in particular
`"@John_Doe" ↦ "John_Doe"` and `"bad user!" ↦ "unknown"`. -/
theorem C8_username_validation :
    (∀ s d : String,
      validate_data (.vStr s) .username (.vStr d) none none =
        (let t := trimS s
         let u := if startsWithL "@".toList t.toList then String.mk (t.toList.drop 1) else t
         if usernameOkS u then .vStr u else .vStr d)) ∧
    validate_data (.vStr "@John_Doe") .username (.vStr "unknown") none none = .vStr "John_Doe" ∧
    validate_data (.vStr "bad user!") .username (.vStr "unknown") none none = .vStr "unknown" := by
  refine ⟨fun s d => ?_, by decide, by decide⟩
  simp only [validate_data, usernameOkS]
  by_cases h1 : (trimS s).toList.isEmpty
  · have hnil : (trimS s).toList = [] := by
      cases h : (trimS s).toList
      · rfl
      · rw [h] at h1; simp at h1
    simp [h1, hnil, usernameOkL, startsWithL]
    intro hd
    simp [startsWithL, hd]
  · simp only [h1, Bool.false_eq_true, if_false]

/-- Claim C3 evidence: two anchor targets differing only in their query
string both survive `extract_contact_info`'s link handling and the final
`list(set(...))`, despite having the same normalized (scheme+host+path) URL —
the base-URL check compares `"scheme://netloc+path"` strings against
`"netloc+path"` strings, which never match. -/
theorem C3_query_variants_both_kept :
    contactSocialLinks
        [some "https://instagram.com/user?igshid=1", some "https://instagram.com/user?igshid=2"]
      = ["https://instagram.com/user?igshid=1", "https://instagram.com/user?igshid=2"] ∧
    normBase "https://instagram.com/user?igshid=1" = normBase "https://instagram.com/user?igshid=2" := by
  decide

/-- Claim C4 evidence (the shipped module itself fails to parse inside
`get_tagged_users`): the intact first search pass aggregates two sightings of
`x` dated `2024-01-01` then `2024-03-01` into a single entry with
`post_count = 2` and `last_tagged = "2024-03-01"`, and the target's own posts
(case-insensitively) never become entries. -/
theorem C4_first_pass_aggregation :
    get_tagged_users_firstPass "target" "2024-06-01"
        [⟨some "x", none, some "2024-01-01"⟩, ⟨some "x", none, some "2024-03-01"⟩]
      = [⟨"x", "x", 2, "2024-03-01"⟩] ∧
    get_tagged_users_firstPass "x" "2024-06-01" [⟨some "x", some "Nick", some "2024-01-01"⟩] = [] ∧
    get_tagged_users_firstPass "X" "2024-06-01" [⟨some "x", some "Nick", some "2024-01-01"⟩] = [] := by
  decide

/-- Claim C6 evidence: in `get_profile_info`, `get_user_followers` and
`get_user_following` the page request (`driver.get`) sits between session
acquisition and the `try` whose `finally` releases it, so when that request
raises, the session is acquired but never released; exceptions inside the
inner `try` do release it, and `extract_contact_info` (whose `driver.get` is
inside the `try`) always releases what it acquires. -/
theorem C6_session_release :
    get_profile_info_trace .raises (.getRaises "page load timed out") = ⟨true, false⟩ ∧
    get_user_followers_trace .getRaises = ⟨true, false⟩ ∧
    get_user_following_trace .getRaises = ⟨true, false⟩ ∧
    get_profile_info_trace .raises .innerRaises = ⟨true, true⟩ ∧
    (∀ b, (extract_contact_info_trace b).released = (extract_contact_info_trace b).acquired) := by
  refine ⟨by decide, by decide, by decide, by decide, fun b => ?_⟩
  cases b <;> rfl

theorem parseUserItems_username_ne :
    ∀ (items : List RawUserItem) (e : RelationshipEntry),
      e ∈ parseUserItems items → e.username ≠ "" := by
  intro items
  induction items with
  | nil => intro e he; simp [parseUserItems] at he
  | cons it rest ih =>
    intro e he
    rw [parseUserItems] at he
    by_cases hr : it.raises
    · rw [if_pos hr] at he; exact ih e he
    · rw [if_neg hr] at he
      rcases hc : itemCountsGo it.statsTexts 0 0 with _ | ⟨fc, gc⟩
      · simp only [hc] at he; exact ih e he
      · simp only [hc] at he
        by_cases hu :
            (String.mk ((trimL (it.usernameText.getD "").toList).filter (fun c => !(c == '@')))).toList.isEmpty
        · rw [if_pos hu] at he; exact ih e he
        · rw [if_neg hu] at he
          rcases List.mem_cons.mp he with h | h
          · rw [h]
            intro habs
            apply hu
            have : (String.mk ((trimL (it.usernameText.getD "").toList).filter (fun c => !(c == '@')))) = "" := habs
            rw [this]
            rfl
          · exact ih e h

/-- Claim C5 (confirmed): both relationship extractors return the empty
sequence — not an error — when the list-opening control cannot be located,
and no returned entry ever has an empty handle (the `if username_text:` guard
skips entries without a resolvable handle). -/
theorem C5_relationship_extractors :
    get_user_followers .noLink = [] ∧ get_user_following .noLink = [] ∧
    (∀ p e, e ∈ get_user_followers p → e.username ≠ "") ∧
    (∀ p e, e ∈ get_user_following p → e.username ≠ "") := by
  refine ⟨rfl, rfl, ?_, ?_⟩
  · intro p e he
    cases p with
    | setupRaises => cases he
    | getRaises => cases he
    | waitRaises => cases he
    | noLink => cases he
    | linkFails => cases he
    | withItems items => exact parseUserItems_username_ne items e he
  · intro p e he
    cases p with
    | setupRaises => cases he
    | getRaises => cases he
    | waitRaises => cases he
    | noLink => cases he
    | linkFails => cases he
    | withItems items => exact parseUserItems_username_ne items e he

/-- Witness for C5: a concrete no-control page yields `[]`, and the entry
parsed from a concrete item has a non-empty handle. -/
theorem C5_witness :
    get_user_followers .noLink = [] ∧
    (⟨"ann", "ann", 0, 0⟩ : RelationshipEntry).username ≠ "" := by
  refine ⟨C5_relationship_extractors.1, ?_⟩
  exact C5_relationship_extractors.2.2.1 (.withItems [⟨some "@ann", none, [], false⟩])
    ⟨"ann", "ann", 0, 0⟩ (by decide)

theorem scrapeProfile_spec (u : String) (sc : ScrapeOutcome) :
    ((scrapeProfile u sc).data_source = none ∨
     (scrapeProfile u sc).data_source = some "web_scraping" ∨
     (scrapeProfile u sc).data_source = some "fallback") ∧
    ((scrapeProfile u sc).data_source = some "web_scraping" →
      ∃ a b c d, (scrapeProfile u sc).follower_count = some a ∧
        (scrapeProfile u sc).following_count = some b ∧
        (scrapeProfile u sc).likes = some c ∧
        (scrapeProfile u sc).video_count = some d ∧
        0 ≤ a ∧ a ≤ 1000000000 ∧ 0 ≤ b ∧ b ≤ 10000 ∧
        0 ≤ c ∧ c ≤ 10000000000 ∧ 0 ≤ d ∧ d ≤ 10000) ∧
    ((scrapeProfile u sc).data_source = some "fallback" →
      (scrapeProfile u sc).follower_count = some 0 ∧
      (scrapeProfile u sc).following_count = some 0 ∧
      (scrapeProfile u sc).likes = some 0 ∧
      (scrapeProfile u sc).video_count = some 0) ∧
    (sc = .innerRaises → scrapeProfile u sc = emptyProfile) := by
  cases sc with
  | setupRaises msg =>
    refine ⟨Or.inr (Or.inr rfl), fun h => ?_, fun _ => ⟨rfl, rfl, rfl, rfl⟩, fun h => ?_⟩
    · simp [scrapeProfile, fallbackRecord] at h
    · exact ScrapeOutcome.noConfusion h
  | getRaises msg =>
    refine ⟨Or.inr (Or.inr rfl), fun h => ?_, fun _ => ⟨rfl, rfl, rfl, rfl⟩, fun h => ?_⟩
    · simp [scrapeProfile, fallbackRecord] at h
    · exact ScrapeOutcome.noConfusion h
  | innerRaises =>
    refine ⟨Or.inl rfl, fun h => ?_, fun h => ?_, fun _ => rfl⟩
    · simp [scrapeProfile, emptyProfile] at h
    · simp [scrapeProfile, emptyProfile] at h
  | ok page =>
    refine ⟨Or.inr (Or.inl rfl), fun _ => ?_, fun h => ?_, fun h => ?_⟩
    · refine ⟨clampInt (classifyStats page.statsText).1 (some 0) (some 1000000000),
        clampInt (classifyStats page.statsText).2.1 (some 0) (some 10000),
        clampInt (classifyStats page.statsText).2.2.1 (some 0) (some 10000000000),
        clampInt (classifyStats page.statsText).2.2.2 (some 0) (some 10000),
        rfl, rfl, rfl, rfl, ?_, ?_, ?_, ?_, ?_, ?_, ?_, ?_⟩
      · exact (clampInt_mem _ 0 1000000000 (by norm_num)).1
      · exact (clampInt_mem _ 0 1000000000 (by norm_num)).2
      · exact (clampInt_mem _ 0 10000 (by norm_num)).1
      · exact (clampInt_mem _ 0 10000 (by norm_num)).2
      · exact (clampInt_mem _ 0 10000000000 (by norm_num)).1
      · exact (clampInt_mem _ 0 10000000000 (by norm_num)).2
      · exact (clampInt_mem _ 0 10000 (by norm_num)).1
      · exact (clampInt_mem _ 0 10000 (by norm_num)).2
    · simp [scrapeProfile, scrapeRecord] at h
    · exact ScrapeOutcome.noConfusion h

/-- Claim C1 (amended): every call returns exactly one record, and
* the `data_source` key is absent (API path or empty record), the string
  `'web_scraping'`, or `'fallback'` — never `'api'` or `'scrape'`;
* a `'web_scraping'` record has its four counts clamped into the configured
  bounds `[0,10^9]`, `[0,10^4]`, `[0,10^10]`, `[0,10^4]`;
* a `'fallback'` record has all four counts zero;
* but when the scraping step raises after the page request (API path having
  missed), the call returns the EMPTY record — no `data_source`, no numeric
  fields at all. -/
theorem C1_profile_record (u : String) (api : ApiOutcome) (sc : ScrapeOutcome) :
    ((get_profile_info u api sc).data_source = none ∨
     (get_profile_info u api sc).data_source = some "web_scraping" ∨
     (get_profile_info u api sc).data_source = some "fallback") ∧
    ((get_profile_info u api sc).data_source = some "web_scraping" →
      ∃ a b c d, (get_profile_info u api sc).follower_count = some a ∧
        (get_profile_info u api sc).following_count = some b ∧
        (get_profile_info u api sc).likes = some c ∧
        (get_profile_info u api sc).video_count = some d ∧
        0 ≤ a ∧ a ≤ 1000000000 ∧ 0 ≤ b ∧ b ≤ 10000 ∧
        0 ≤ c ∧ c ≤ 10000000000 ∧ 0 ≤ d ∧ d ≤ 10000) ∧
    ((get_profile_info u api sc).data_source = some "fallback" →
      (get_profile_info u api sc).follower_count = some 0 ∧
      (get_profile_info u api sc).following_count = some 0 ∧
      (get_profile_info u api sc).likes = some 0 ∧
      (get_profile_info u api sc).video_count = some 0) ∧
    (apiHit api = false → sc = .innerRaises → get_profile_info u api sc = emptyProfile) := by
  cases api with
  | raises =>
    have h := scrapeProfile_spec u sc
    exact ⟨h.1, h.2.1, h.2.2.1, fun _ => h.2.2.2⟩
  | resp s ui =>
    cases ui with
    | none =>
      have h := scrapeProfile_spec u sc
      exact ⟨h.1, h.2.1, h.2.2.1, fun _ => h.2.2.2⟩
    | some info =>
      by_cases hs : (s == 200) = true
      · simp only [get_profile_info, hs, if_true]
        refine ⟨Or.inl rfl, fun h => ?_, fun h => ?_, fun hhit => ?_⟩
        · simp [apiRecord] at h
        · simp [apiRecord] at h
        · rw [apiHit, hs] at hhit; cases hhit
      · simp only [get_profile_info, hs, if_false]
        have h := scrapeProfile_spec u sc
        exact ⟨h.1, h.2.1, h.2.2.1, fun _ => h.2.2.2⟩

/-- Claim C1 counterexample: with the API path missing and the scrape step
raising after the page request (e.g. the page-ready wait timing out), the
call returns the empty dict — no `data_source` value at all (so none of
`'api'`/`'scrape'`/`'fallback'`) and no numeric fields. -/
theorem C1_counterexample :
    get_profile_info "user" .raises .innerRaises = emptyProfile ∧
    (get_profile_info "user" .raises .innerRaises).data_source = none ∧
    (get_profile_info "user" .raises .innerRaises).follower_count = none := by
  decide

/-- Witness for C1 at a concrete successful scrape: the record is tagged
`'web_scraping'` and its follower count lies within the configured bounds. -/
theorem C1_witness :
    ∃ a, (get_profile_info "user" .raises
        (.ok ⟨some "Name", some "hello", ["followers", "1.2K"], false, false⟩)).follower_count = some a ∧
      0 ≤ a ∧ a ≤ 1000000000 := by
  have h := (C1_profile_record "user" .raises
    (.ok ⟨some "Name", some "hello", ["followers", "1.2K"], false, false⟩)).2.1 (by decide)
  obtain ⟨a, b, c, d, h1, _, _, _, ha0, ha1, _⟩ := h
  exact ⟨a, h1, ha0, ha1⟩

theorem mem_dropWhile {c : Char} {p : Char → Bool} {l : List Char}
    (hc : c ∈ l) (hp : p c = false) : c ∈ l.dropWhile p := by
  induction l with
  | nil => cases hc
  | cons a t ih =>
    rw [List.dropWhile_cons]
    by_cases ha : p a = true
    · rw [if_pos ha]
      rcases List.mem_cons.mp hc with h | h
      · rw [h] at hp; rw [hp] at ha; cases ha
      · exact ih h
    · rw [if_neg ha]
      exact hc

theorem mem_trimL {c : Char} {l : List Char}
    (hc : c ∈ l) (hs : isSpaceChar c = false) : c ∈ trimL l := by
  unfold trimL
  exact List.mem_reverse.mpr (mem_dropWhile (List.mem_reverse.mpr (mem_dropWhile hc hs)) hs)

theorem mem_cleanCount {c : Char} {l : List Char}
    (hc : c ∈ l) (hs : isSpaceChar c = false) (ha : arabicToEnglish c = c)
    (hf : (!(c == ',' || c == ' ')) = true) : c ∈ cleanCount l := by
  unfold cleanCount
  refine List.mem_filter.mpr ⟨?_, hf⟩
  have h1 := List.mem_map_of_mem arabicToEnglish (mem_trimL hc hs)
  rwa [ha] at h1

theorem hasSubL_singleton {c : Char} {l : List Char} (h : c ∈ l) : hasSubL [c] l = true := by
  induction l with
  | nil => cases h
  | cons a t ih =>
    rw [hasSubL]
    rcases List.mem_cons.mp h with h1 | h1
    · rw [h1]
      simp [startsWithL]
    · rw [ih h1]
      simp

theorem hasAnySub_bMarkers {s : List Char} (h : 'B' ∈ s) : hasAnySub bMarkers s = true := by
  apply List.any_eq_true.mpr
  exact ⟨"B", by simp [bMarkers], hasSubL_singleton h⟩

/-- Claim C10 (confirmed): branch selection in `_parse_count` is by substring
containment anywhere in the cleaned input, in the fixed order K-markers,
M-markers, B-markers — so any input containing `'b'`/`'B'` anywhere, with no
K- or M-marker, is routed to the ×10^9 branch even when the letter belongs to
an unrelated word. -/
theorem C10_b_branch (s : String)
    (hb : 'b' ∈ s.toList ∨ 'B' ∈ s.toList)
    (hk : hasAnySub kMarkers (upperL (cleanCount s.toList)) = false)
    (hm : hasAnySub mMarkers (upperL (cleanCount s.toList)) = false) :
    parse_count s = numBranch (cleanCount s.toList) (some 1000000000) := by
  have hne : s.toList.isEmpty = false := by
    cases hl : s.toList with
    | nil => rcases hb with h | h <;> (rw [hl] at h; cases h)
    | cons a t => rfl
  have hcB : 'B' ∈ upperL (cleanCount s.toList) := by
    rcases hb with h | h
    · have h1 : 'b' ∈ cleanCount s.toList := mem_cleanCount h (by decide) (by decide) (by decide)
      have h2 : Char.toUpper 'b' ∈ upperL (cleanCount s.toList) :=
        List.mem_map_of_mem Char.toUpper h1
      rwa [show Char.toUpper 'b' = 'B' from by decide] at h2
    · have h1 : 'B' ∈ cleanCount s.toList := mem_cleanCount h (by decide) (by decide) (by decide)
      have h2 : Char.toUpper 'B' ∈ upperL (cleanCount s.toList) :=
        List.mem_map_of_mem Char.toUpper h1
      rwa [show Char.toUpper 'B' = 'B' from by decide] at h2
  have hB := hasAnySub_bMarkers hcB
  simp only [parse_count, hne, Bool.false_eq_true, if_false, hk, hm, hB, if_true]

/-- Witness for C10: `"5 subscribers"` contains `'b'` in the unrelated word
`subscribers` and no K- or M-marker, so `_parse_count` returns 5 times 10^9. -/
theorem C10_witness : parse_count "5 subscribers" = .ok 5000000000 := by
  have h := C10_b_branch "5 subscribers" (Or.inl (by decide)) (by decide) (by decide)
  exact h.trans (by decide)

/-! ### Lemmas about the binary64 model, used for the `_parse_count` claims -/

theorem pow2q_eq (n : ℕ) : pow2q n = (2 : ℚ) ^ n := by
  unfold pow2q
  push_cast
  rfl

theorem pow2z_eq (e : ℤ) : pow2z e = (2 : ℚ) ^ e := by
  unfold pow2z
  rcases le_or_lt 0 e with h | h
  · rw [if_pos h, pow2q_eq, ← zpow_natCast, Int.toNat_of_nonneg h]
  · rw [if_neg (not_le.mpr h), pow2q_eq, ← zpow_natCast,
      Int.toNat_of_nonneg (by omega : (0 : ℤ) ≤ -e), ← zpow_neg, neg_neg]

theorem pow2z_pos (e : ℤ) : 0 < pow2z e := by
  rw [pow2z_eq]
  positivity

theorem pow2z_le_one (e : ℤ) (he : e ≤ 0) : pow2z e ≤ 1 := by
  rw [pow2z_eq]
  exact zpow_le_one_of_nonpos₀ (by norm_num) he

theorem pow2z_mono {e f : ℤ} (h : e ≤ f) : pow2z e ≤ pow2z f := by
  rw [pow2z_eq, pow2z_eq]
  exact zpow_le_zpow_right₀ (by norm_num) h

theorem ovfThreshold_eq : ovfThreshold = (2 : ℚ) ^ (1024 : ℕ) - (2 : ℚ) ^ (970 : ℕ) := by
  unfold ovfThreshold
  norm_num

theorem natLog2F_spec : ∀ fuel n : ℕ, 1 ≤ n → n ≤ fuel →
    2 ^ natLog2F fuel n ≤ n ∧ n < 2 ^ (natLog2F fuel n + 1) := by
  intro fuel
  induction fuel with
  | zero => intro n h1 h2; omega
  | succ f ih =>
    intro n h1 h2
    rw [natLog2F]
    by_cases hn : n < 2
    · rw [if_pos hn]
      constructor
      · simpa using h1
      · simpa using hn
    · rw [if_neg hn]
      have h1' : 1 ≤ n / 2 := by omega
      have h2' : n / 2 ≤ f := by omega
      obtain ⟨ha, hb⟩ := ih (n / 2) h1' h2'
      rw [pow_succ] at hb
      rw [pow_succ, pow_succ, pow_succ]
      omega

theorem natLog2_spec (n : ℕ) (h : 1 ≤ n) :
    2 ^ natLog2 n ≤ n ∧ n < 2 ^ (natLog2 n + 1) :=
  natLog2F_spec n n h le_rfl

theorem ilog2_le (q : ℚ) (hq : 0 < q) : pow2z (ilog2 q) ≤ q := by
  unfold ilog2
  set e0 : ℤ := (natLog2 q.num.natAbs : ℤ) - (natLog2 q.den : ℤ) with he0
  dsimp only
  split_ifs with h1 h2
  · exact h1
  · exact h2
  · have hA : 1 ≤ q.num.natAbs := Int.natAbs_pos.mpr (ne_of_gt (Rat.num_pos.mpr hq))
    have hB : 1 ≤ q.den := q.den_pos
    obtain ⟨hA1, _⟩ := natLog2_spec q.num.natAbs hA
    obtain ⟨_, hB2⟩ := natLog2_spec q.den hB
    have hnn : ((q.num.natAbs : ℕ) : ℚ) = ((q.num : ℤ) : ℚ) := by
      have h0 : ((q.num.natAbs : ℕ) : ℤ) = q.num := Int.natAbs_of_nonneg (Rat.num_pos.mpr hq).le
      have h1 : (((q.num.natAbs : ℕ) : ℤ) : ℚ) = ((q.num : ℤ) : ℚ) := by rw [h0]
      rwa [Int.cast_natCast] at h1
    have hqe : q = (q.num.natAbs : ℚ) / (q.den : ℚ) := by
      rw [hnn]
      exact (Rat.num_div_den q).symm
    rw [hqe, pow2z_eq]
    rw [show e0 - 1 = (natLog2 q.num.natAbs : ℤ) - ((natLog2 q.den : ℤ) + 1) by rw [he0]; ring]
    rw [zpow_sub₀ (two_ne_zero)]
    rw [div_le_div_iff₀ (by positivity) (by positivity)]
    have c1 : (2 : ℚ) ^ ((natLog2 q.num.natAbs : ℕ) : ℤ) ≤ (q.num.natAbs : ℚ) := by
      rw [zpow_natCast]
      exact_mod_cast Nat.cast_le.mpr hA1
    have c2 : ((q.den : ℕ) : ℚ) ≤ (2 : ℚ) ^ ((natLog2 q.den : ℤ) + 1) := by
      rw [show (natLog2 q.den : ℤ) + 1 = ((natLog2 q.den + 1 : ℕ) : ℤ) by push_cast; ring,
        zpow_natCast]
      exact_mod_cast hB2.le
    calc (2 : ℚ) ^ ((natLog2 q.num.natAbs : ℕ) : ℤ) * (q.den : ℚ)
        ≤ (q.num.natAbs : ℚ) * (q.den : ℚ) :=
          mul_le_mul_of_nonneg_right c1 (by positivity)
      _ ≤ (q.num.natAbs : ℚ) * (2 : ℚ) ^ ((natLog2 q.den : ℤ) + 1) :=
          mul_le_mul_of_nonneg_left c2 (by positivity)

theorem roundHalfEven_nonneg (q : ℚ) (h : 0 ≤ q) : 0 ≤ roundHalfEven q := by
  unfold roundHalfEven
  have hf : 0 ≤ ⌊q⌋ := Int.floor_nonneg.mpr h
  dsimp only
  split_ifs <;> omega

theorem roundHalfEven_le (q : ℚ) : (roundHalfEven q : ℚ) ≤ q + 1 := by
  unfold roundHalfEven
  have hf : (⌊q⌋ : ℚ) ≤ q := Int.floor_le q
  dsimp only
  split_ifs <;> push_cast <;> linarith

theorem rndAux_nonneg (q : ℚ) (h : 0 ≤ q) : 0 ≤ rndAux q := by
  unfold rndAux
  have h1 : 0 ≤ q / pow2z (ulpExp q) := div_nonneg h (pow2z_pos _).le
  have h2 : (0 : ℚ) ≤ (roundHalfEven (q / pow2z (ulpExp q)) : ℚ) := by
    exact_mod_cast roundHalfEven_nonneg _ h1
  exact mul_nonneg h2 (pow2z_pos _).le

theorem ilog2_zero : ilog2 (0 : ℚ) = -1 := by decide

theorem pow2z_ulp_le (q : ℚ) (h : 0 ≤ q) : pow2z (ulpExp q) ≤ q + 1 := by
  unfold ulpExp
  rcases le_or_lt (ilog2 q - 52) (-1074) with hm | hm
  · rw [max_eq_right hm]
    have := pow2z_le_one (-1074) (by norm_num)
    linarith
  · rw [max_eq_left hm.le]
    rcases le_or_lt (ilog2 q - 52) 0 with hz | hz
    · have := pow2z_le_one _ hz
      linarith
    · have hq : 0 < q := by
        rcases eq_or_lt_of_le h with he | he
        · exfalso
          rw [← he, ilog2_zero] at hz
          omega
        · exact he
      have := pow2z_mono (by omega : ilog2 q - 52 ≤ ilog2 q)
      have := ilog2_le q hq
      linarith

theorem rndAux_le (q : ℚ) (h : 0 ≤ q) : rndAux q ≤ 2 * q + 1 := by
  unfold rndAux
  have hp := pow2z_pos (ulpExp q)
  have h1 : (roundHalfEven (q / pow2z (ulpExp q)) : ℚ) ≤ q / pow2z (ulpExp q) + 1 :=
    roundHalfEven_le _
  have h2 : (roundHalfEven (q / pow2z (ulpExp q)) : ℚ) * pow2z (ulpExp q) ≤
      (q / pow2z (ulpExp q) + 1) * pow2z (ulpExp q) :=
    mul_le_mul_of_nonneg_right h1 hp.le
  have h3 : (q / pow2z (ulpExp q) + 1) * pow2z (ulpExp q) = q + pow2z (ulpExp q) := by
    field_simp
  have h4 := pow2z_ulp_le q h
  linarith

theorem tokenValue?_nonneg (t : List Char) (q : ℚ) (h : tokenValue? t = some q) : 0 ≤ q := by
  unfold tokenValue? at h
  split_ifs at h with hc
  injection h with h'
  rw [← h']
  positivity

theorem pyTrunc_nonneg (q : ℚ) (h : 0 ≤ q) : 0 ≤ pyTrunc q := by
  unfold pyTrunc
  rw [if_pos h]
  exact Int.floor_nonneg.mpr h

theorem roundToDouble_eq_inf_iff (q : ℚ) : roundToDouble q = .inf ↔ ovfThreshold ≤ q := by
  unfold roundToDouble
  constructor
  · intro h
    by_contra hc
    rw [if_neg hc] at h
    cases h
  · intro h
    rw [if_pos h]

theorem roundToDouble_finite {q f : ℚ} (h : roundToDouble q = .finite f) :
    f = rndAux q ∧ ¬ ovfThreshold ≤ q := by
  unfold roundToDouble at h
  split_ifs at h with hq
  injection h with h'
  exact ⟨h'.symm, hq⟩

theorem pow2q900_le_ovf : pow2q 900 ≤ ovfThreshold := by
  rw [pow2q_eq, ovfThreshold_eq]
  have h1 : (2 : ℚ) ^ (900 : ℕ) ≤ (2 : ℚ) ^ (1023 : ℕ) :=
    pow_le_pow_right₀ (by norm_num) (by norm_num)
  have h2 : (2 : ℚ) ^ (970 : ℕ) ≤ (2 : ℚ) ^ (1023 : ℕ) :=
    pow_le_pow_right₀ (by norm_num) (by norm_num)
  have h3 : (2 : ℚ) ^ (1024 : ℕ) = 2 * (2 : ℚ) ^ (1023 : ℕ) := by
    rw [show (1024 : ℕ) = 1023 + 1 from rfl, pow_succ]
    ring
  linarith

theorem mult_bound_helper {q : ℚ} {v : ℕ} (hq : 0 ≤ q) (hv : (v : ℚ) ≤ 1000000000)
    (hbig : ovfThreshold ≤ rndAux q * (v : ℚ)) : pow2q 900 ≤ q := by
  have hf := rndAux_le q hq
  have hv0 : (0 : ℚ) ≤ (v : ℚ) := Nat.cast_nonneg v
  have h1 : rndAux q * (v : ℚ) ≤ (2 * q + 1) * 1000000000 := by
    calc rndAux q * (v : ℚ) ≤ (2 * q + 1) * (v : ℚ) :=
          mul_le_mul_of_nonneg_right hf hv0
      _ ≤ (2 * q + 1) * 1000000000 :=
          mul_le_mul_of_nonneg_left hv (by linarith)
  have h2 : ovfThreshold ≤ 2 * 1000000000 * q + 1000000000 := by nlinarith
  have h3 : 2 * 1000000000 * pow2q 900 + 1000000000 ≤ ovfThreshold := by
    rw [pow2q_eq, ovfThreshold_eq]
    have e1 : (1000000000 : ℚ) * (2 : ℚ) ^ (900 : ℕ) ≤ (2 : ℚ) ^ (30 : ℕ) * (2 : ℚ) ^ (900 : ℕ) :=
      mul_le_mul_of_nonneg_right (by norm_num) (by positivity)
    have e2 : (2 : ℚ) ^ (30 : ℕ) * (2 : ℚ) ^ (900 : ℕ) = (2 : ℚ) ^ (930 : ℕ) := by
      rw [← pow_add]
    have e3 : (2 : ℚ) ^ (931 : ℕ) = 2 * (2 : ℚ) ^ (930 : ℕ) := by
      rw [show (931 : ℕ) = 930 + 1 from rfl, pow_succ]
      ring
    have e4 : (2 : ℚ) ^ (931 : ℕ) ≤ (2 : ℚ) ^ (1022 : ℕ) :=
      pow_le_pow_right₀ (by norm_num) (by norm_num)
    have e5 : (1000000000 : ℚ) ≤ (2 : ℚ) ^ (1022 : ℕ) := by
      calc (1000000000 : ℚ) ≤ (2 : ℚ) ^ (30 : ℕ) := by norm_num
        _ ≤ (2 : ℚ) ^ (1022 : ℕ) := pow_le_pow_right₀ (by norm_num) (by norm_num)
    have e6 : (2 : ℚ) ^ (970 : ℕ) ≤ (2 : ℚ) ^ (1022 : ℕ) :=
      pow_le_pow_right₀ (by norm_num) (by norm_num)
    have e7 : (2 : ℚ) ^ (1024 : ℕ) = 4 * (2 : ℚ) ^ (1022 : ℕ) := by
      rw [show (1024 : ℕ) = 1022 + 2 from rfl, pow_add]
      ring
    linarith
  linarith

theorem numBranch_ok_nonneg (c : List Char) (m : Option ℕ) (n : ℤ)
    (h : numBranch c m = .ok n) : 0 ≤ n := by
  simp only [numBranch] at h
  rcases he : extractToken c with _ | t <;> simp only [he] at h
  · injection h with h'
    omega
  · rcases hv : tokenValue? t with _ | q <;> simp only [hv] at h
    · injection h with h'
      omega
    · have hq := tokenValue?_nonneg t q hv
      rcases hr : roundToDouble q with f | _ <;> simp only [hr] at h
      · obtain ⟨hf, _⟩ := roundToDouble_finite hr
        have hf0 : 0 ≤ f := hf ▸ rndAux_nonneg q hq
        rcases m with _ | v <;> simp only [] at h
        · injection h with h'
          rw [← h']
          exact pyTrunc_nonneg f hf0
        · rcases hr2 : roundToDouble (f * (v : ℚ)) with p | _ <;> simp only [hr2] at h
          · obtain ⟨hp, _⟩ := roundToDouble_finite hr2
            have hp0 : 0 ≤ p := hp ▸ rndAux_nonneg _ (mul_nonneg hf0 (Nat.cast_nonneg v))
            injection h with h'
            rw [← h']
            exact pyTrunc_nonneg p hp0
          · cases h
      · cases h

theorem numBranch_err (c : List Char) (m : Option ℕ)
    (hm : ∀ v, m = some v → (v : ℚ) ≤ 1000000000)
    (h : numBranch c m = .overflowError) :
    ∃ t q, extractToken c = some t ∧ tokenValue? t = some q ∧ pow2q 900 ≤ q := by
  simp only [numBranch] at h
  rcases he : extractToken c with _ | t <;> simp only [he] at h
  · cases h
  · rcases hv : tokenValue? t with _ | q <;> simp only [hv] at h
    · cases h
    · refine ⟨t, q, rfl, hv, ?_⟩
      have hq := tokenValue?_nonneg t q hv
      rcases hr : roundToDouble q with f | _ <;> simp only [hr] at h
      · obtain ⟨hf, _⟩ := roundToDouble_finite hr
        rcases m with _ | v <;> simp only [] at h
        · cases h
        · rcases hr2 : roundToDouble (f * (v : ℚ)) with p | _ <;> simp only [hr2] at h
          · cases h
          · have hbig := (roundToDouble_eq_inf_iff _).mp hr2
            exact mult_bound_helper hq (hm v rfl) (hf ▸ hbig)
      · exact le_trans pow2q900_le_ovf ((roundToDouble_eq_inf_iff q).mp hr)

theorem numBranch_none (c : List Char) (m : Option ℕ)
    (h : (extractToken c).bind tokenValue? = none) : numBranch c m = .ok 0 := by
  unfold numBranch
  rcases he : extractToken c with _ | t
  · simp [he]
  · have hv : tokenValue? t = none := by
      rw [he] at h
      simpa using h
    simp [he, hv]

/-- Claim C2 (amended): `_parse_count` returns a non-negative integer for
every string input, never raising `ValueError`/`TypeError`/`AttributeError`
(unparsable input yields 0) — EXCEPT that it raises an uncaught
`OverflowError` when the extracted numeric token is astronomically large
(the token's value must be at least `2^900` for this to happen). -/
theorem C2_parse_count_total_or_overflow (s : String) :
    (∀ n, parse_count s = .ok n → 0 ≤ n) ∧
    (parse_count s = .overflowError →
      ∃ t q, extractToken (cleanCount s.toList) = some t ∧ tokenValue? t = some q ∧
        pow2q 900 ≤ q) ∧
    ((extractToken (cleanCount s.toList)).bind tokenValue? = none → parse_count s = .ok 0) := by
  by_cases hs : s.toList.isEmpty
  · have hp : parse_count s = .ok 0 := by
      unfold parse_count
      rw [hs]
      rfl
    refine ⟨fun n h => ?_, fun h => ?_, fun _ => hp⟩
    · rw [hp] at h
      injection h with h'
      omega
    · rw [hp] at h
      cases h
  · have hs' : s.toList.isEmpty = false := by
      cases h : s.toList.isEmpty
      · rfl
      · exact absurd h hs
    have hbr : parse_count s = numBranch (cleanCount s.toList) (some 1000) ∨
        parse_count s = numBranch (cleanCount s.toList) (some 1000000) ∨
        parse_count s = numBranch (cleanCount s.toList) (some 1000000000) ∨
        parse_count s = numBranch (cleanCount s.toList) none := by
      simp only [parse_count, hs', Bool.false_eq_true, if_false]
      split_ifs with h1 h2 h3
      · exact Or.inl rfl
      · exact Or.inr (Or.inl rfl)
      · exact Or.inr (Or.inr (Or.inl rfl))
      · exact Or.inr (Or.inr (Or.inr rfl))
    rcases hbr with h | h | h | h
    · exact ⟨fun n hn => numBranch_ok_nonneg _ _ n (h ▸ hn),
        fun ho => numBranch_err _ _
          (fun v hv => by injection hv with hv'; rw [← hv']; norm_num) (h ▸ ho),
        fun hnone => h.trans (numBranch_none _ _ hnone)⟩
    · exact ⟨fun n hn => numBranch_ok_nonneg _ _ n (h ▸ hn),
        fun ho => numBranch_err _ _
          (fun v hv => by injection hv with hv'; rw [← hv']; norm_num) (h ▸ ho),
        fun hnone => h.trans (numBranch_none _ _ hnone)⟩
    · exact ⟨fun n hn => numBranch_ok_nonneg _ _ n (h ▸ hn),
        fun ho => numBranch_err _ _
          (fun v hv => by injection hv with hv'; rw [← hv']; norm_num) (h ▸ ho),
        fun hnone => h.trans (numBranch_none _ _ hnone)⟩
    · exact ⟨fun n hn => numBranch_ok_nonneg _ _ n (h ▸ hn),
        fun ho => numBranch_err _ _ (fun v hv => by cases hv) (h ▸ ho),
        fun hnone => h.trans (numBranch_none _ _ hnone)⟩

/-- Claim C2 counterexample: on a 400-digit input `_parse_count` raises an
uncaught `OverflowError` (`float()` of the token is `inf`; `int(inf)` raises;
the `except` clause only lists `ValueError`/`TypeError`/`AttributeError`). -/
theorem C2_counterexample : parse_count bigNines = .overflowError := by decide

/-- Witness for C2: unparsable input yields 0, and a returned value is
non-negative, at concrete inputs. -/
theorem C2_witness : parse_count "bad" = .ok 0 ∧ (0 : ℤ) ≤ 12345 := by
  constructor
  · exact (C2_parse_count_total_or_overflow "bad").2.2 (by decide)
  · exact (C2_parse_count_total_or_overflow "12,345").1 12345 (by decide)

end TikTokSayer

